import Mathlib

/-!
# Verification of the financial-ratios library

Shallow embedding of `src/index.js`: nine pure functions over IEEE-754
double-precision numbers.  A JavaScript number is modelled by `JsVal`:
either a finite value (idealised as a real number), a signed infinity, or
the not-a-number value `nan`.  The arithmetic operations (`jsAdd`, `jsSub`,
`jsMul`, `jsDiv`, `jsSqrt`) follow the IEEE-754 special-value rules: `nan`
is absorbing, infinities combine by the usual sign rules, a finite value
divided by zero yields a signed infinity, `0/0`, `∞ − ∞`, `∞/∞` and
`0 · ∞` yield `nan`.  The strict-equality test `===` is `jsStrictEq`
(false whenever either side is `nan`), and `<=` is `jsLe` (false whenever
either side is `nan`).  Rounding is not modelled: finite arithmetic is
exact real arithmetic, the usual idealisation for specification-level
claims about formulas and guards.
-/

open scoped Classical

namespace FinancialRatios

/-- A JavaScript number: finite (idealised real), signed infinity
(`inf true` is `+∞`, `inf false` is `-∞`), or `nan`. -/
inductive JsVal where
  | num : ℝ → JsVal
  | inf : Bool → JsVal
  | nan : JsVal

namespace JsVal

/-- IEEE-754 addition on `JsVal`. -/
noncomputable def jsAdd : JsVal → JsVal → JsVal
  | nan, _ => nan
  | _, nan => nan
  | num a, num b => num (a + b)
  | num _, inf s => inf s
  | inf s, num _ => inf s
  | inf s, inf t => if s = t then inf s else nan

/-- IEEE-754 subtraction on `JsVal`. -/
noncomputable def jsSub : JsVal → JsVal → JsVal
  | nan, _ => nan
  | _, nan => nan
  | num a, num b => num (a - b)
  | num _, inf s => inf (!s)
  | inf s, num _ => inf s
  | inf s, inf t => if s = t then nan else inf s

/-- IEEE-754 multiplication on `JsVal`. -/
noncomputable def jsMul : JsVal → JsVal → JsVal
  | nan, _ => nan
  | _, nan => nan
  | num a, num b => num (a * b)
  | num a, inf s => if a = 0 then nan else if 0 < a then inf s else inf (!s)
  | inf s, num b => if b = 0 then nan else if 0 < b then inf s else inf (!s)
  | inf s, inf t => inf (s = t)

/-- IEEE-754 division on `JsVal` (the embedding has a single zero, so a
nonzero finite value divided by zero gets the sign of the numerator, as
with `+0` in JavaScript). -/
noncomputable def jsDiv : JsVal → JsVal → JsVal
  | nan, _ => nan
  | _, nan => nan
  | num a, num b =>
      if b = 0 then (if a = 0 then nan else if 0 < a then inf true else inf false)
      else num (a / b)
  | num _, inf _ => num 0
  | inf s, num b => if 0 ≤ b then inf s else inf (!s)
  | inf _, inf _ => nan

/-- `Math.sqrt` on `JsVal`: `nan` on negative or `nan` input, `+∞` at
`+∞`, otherwise the real square root. -/
noncomputable def jsSqrt : JsVal → JsVal
  | nan => nan
  | num a => if a < 0 then nan else num (Real.sqrt a)
  | inf s => if s then inf true else nan

/-- JavaScript strict equality `===` restricted to numbers: `nan` is equal
to nothing (itself included), infinities compare by sign, finite values
compare as reals. -/
def jsStrictEq : JsVal → JsVal → Prop
  | num a, num b => a = b
  | inf s, inf t => s = t
  | _, _ => False

/-- JavaScript `<=` on numbers: false whenever either side is `nan`,
`-∞` below everything, `+∞` above everything. -/
def jsLe : JsVal → JsVal → Prop
  | nan, _ => False
  | _, nan => False
  | num a, num b => a ≤ b
  | inf s, num _ => s = false
  | num _, inf t => t = true
  | inf s, inf t => s = false ∨ t = true

/-- A `JsVal` is finite when it is an actual (real) number, neither an
infinity nor `nan`. -/
def IsFinite (x : JsVal) : Prop := ∃ r : ℝ, x = num r

end JsVal

open JsVal

/-- `calculateSharpeRatio` from `src/index.js`: guard `standardDeviation === 0`,
then `(averageReturn - riskFreeRate) / standardDeviation`. -/
noncomputable def calculateSharpeRatio
    (riskFreeRate averageReturn standardDeviation : JsVal) : JsVal :=
  if jsStrictEq standardDeviation (JsVal.num 0) then JsVal.nan
  else jsDiv (jsSub averageReturn riskFreeRate) standardDeviation

/-- `calculateTreynorRatio` from `src/index.js`: guard `beta === 0`, then
`(averageReturn - marketReturn) / beta`. -/
noncomputable def calculateTreynorRatio
    (averageReturn marketReturn beta : JsVal) : JsVal :=
  if jsStrictEq beta (JsVal.num 0) then JsVal.nan
  else jsDiv (jsSub averageReturn marketReturn) beta

/-- `calculateSortinoRatio` from `src/index.js`: guard `downsideDeviation === 0`,
then `(averageReturn - riskFreeRate) / downsideDeviation`. -/
noncomputable def calculateSortinoRatio
    (riskFreeRate averageReturn downsideDeviation : JsVal) : JsVal :=
  if jsStrictEq downsideDeviation (JsVal.num 0) then JsVal.nan
  else jsDiv (jsSub averageReturn riskFreeRate) downsideDeviation

/-- `calculateEnterpriseValueToEBITDA` from `src/index.js`: guard
`ebitda === 0`, then `enterpriseValue / ebitda`. -/
noncomputable def calculateEnterpriseValueToEBITDA
    (enterpriseValue ebitda : JsVal) : JsVal :=
  if jsStrictEq ebitda (JsVal.num 0) then JsVal.nan
  else jsDiv enterpriseValue ebitda

/-- `calculatePriceToBook` from `src/index.js`: guard
`bookValuePerShare === 0`, then `stockPrice / bookValuePerShare`. -/
noncomputable def calculatePriceToBook
    (stockPrice bookValuePerShare : JsVal) : JsVal :=
  if jsStrictEq bookValuePerShare (JsVal.num 0) then JsVal.nan
  else jsDiv stockPrice bookValuePerShare

/-- `calculateGrahamNumber` from `src/index.js`: guard
`earningsPerShare === 0 || bondYield === 0`, then
`(earningsPerShare * (1 + epsGrowthRate) * Math.sqrt(22.5)) / bondYield`. -/
noncomputable def calculateGrahamNumber
    (earningsPerShare epsGrowthRate bondYield : JsVal) : JsVal :=
  if jsStrictEq earningsPerShare (JsVal.num 0) ∨ jsStrictEq bondYield (JsVal.num 0)
  then JsVal.nan
  else
    jsDiv
      (jsMul (jsMul earningsPerShare (jsAdd (JsVal.num 1) epsGrowthRate))
        (jsSqrt (JsVal.num 22.5)))
      bondYield

/-- `calculateExpectedReturnCAPM` from `src/index.js`:
`riskFreeRate + beta * (marketReturn - riskFreeRate)`, no guard. -/
noncomputable def calculateExpectedReturnCAPM
    (riskFreeRate marketReturn beta : JsVal) : JsVal :=
  jsAdd riskFreeRate (jsMul beta (jsSub marketReturn riskFreeRate))

/-- `calculateAltmanZScore` from `src/index.js`:
`numerator = (1.2*workingCapital)/totalAssets + (1.4*retainedEarnings)/totalAssets
+ (3.3*marketValueEquity)/totalLiabilities
+ (0.6*(totalAssets - totalLiabilities))/totalLiabilities`,
`denominator = marketValueEquity / totalLiabilities`, result
`numerator / denominator`, no guard. -/
noncomputable def calculateAltmanZScore
    (workingCapital retainedEarnings totalAssets marketValueEquity
      totalLiabilities : JsVal) : JsVal :=
  let numerator :=
    jsAdd
      (jsAdd
        (jsAdd (jsDiv (jsMul (JsVal.num 1.2) workingCapital) totalAssets)
          (jsDiv (jsMul (JsVal.num 1.4) retainedEarnings) totalAssets))
        (jsDiv (jsMul (JsVal.num 3.3) marketValueEquity) totalLiabilities))
      (jsDiv (jsMul (JsVal.num 0.6) (jsSub totalAssets totalLiabilities))
        totalLiabilities)
  let denominator := jsDiv marketValueEquity totalLiabilities
  jsDiv numerator denominator

/-- The Altman Z-Score numerator exactly as the specification words it:
`1.2·(workingCapital/totalAssets) + 1.4·(retainedEarnings/totalAssets) +
3.3·(marketValueEquity/totalLiabilities) +
0.6·((totalAssets − totalLiabilities)/totalLiabilities)`, divided by
`marketValueEquity/totalLiabilities` (each coefficient multiplies the
quotient, where the code divides the product).  Used to compare the code
against the specification formula. -/
noncomputable def altmanZScoreSpecFormula
    (workingCapital retainedEarnings totalAssets marketValueEquity
      totalLiabilities : JsVal) : JsVal :=
  let numerator :=
    jsAdd
      (jsAdd
        (jsAdd (jsMul (JsVal.num 1.2) (jsDiv workingCapital totalAssets))
          (jsMul (JsVal.num 1.4) (jsDiv retainedEarnings totalAssets)))
        (jsMul (JsVal.num 3.3) (jsDiv marketValueEquity totalLiabilities)))
      (jsMul (JsVal.num 0.6)
        (jsDiv (jsSub totalAssets totalLiabilities) totalLiabilities))
  let denominator := jsDiv marketValueEquity totalLiabilities
  jsDiv numerator denominator

/-- `calculateGordonIntrinsicValueDDM` from `src/index.js`: guard
`discountRate <= growthRate`, then
`currentDividend / (discountRate - growthRate)`. -/
noncomputable def calculateGordonIntrinsicValueDDM
    (currentDividend growthRate discountRate : JsVal) : JsVal :=
  if jsLe discountRate growthRate then JsVal.nan
  else jsDiv currentDividend (jsSub discountRate growthRate)

namespace JsVal

/-! ### Evaluation lemmas for the JavaScript arithmetic -/

@[simp] theorem jsAdd_num_num (a b : ℝ) : jsAdd (num a) (num b) = num (a + b) := rfl

@[simp] theorem jsSub_num_num (a b : ℝ) : jsSub (num a) (num b) = num (a - b) := rfl

@[simp] theorem jsMul_num_num (a b : ℝ) : jsMul (num a) (num b) = num (a * b) := rfl

theorem jsDiv_num_num (a b : ℝ) (hb : b ≠ 0) :
    jsDiv (num a) (num b) = num (a / b) := by
  simp [jsDiv, hb]

@[simp] theorem jsAdd_nan_left (x : JsVal) : jsAdd nan x = nan := by
  cases x <;> rfl

@[simp] theorem jsAdd_nan_right (x : JsVal) : jsAdd x nan = nan := by
  cases x <;> rfl

@[simp] theorem jsSub_nan_left (x : JsVal) : jsSub nan x = nan := by
  cases x <;> rfl

@[simp] theorem jsSub_nan_right (x : JsVal) : jsSub x nan = nan := by
  cases x <;> rfl

@[simp] theorem jsMul_nan_left (x : JsVal) : jsMul nan x = nan := by
  cases x <;> rfl

@[simp] theorem jsMul_nan_right (x : JsVal) : jsMul x nan = nan := by
  cases x <;> rfl

@[simp] theorem jsDiv_nan_left (x : JsVal) : jsDiv nan x = nan := by
  cases x <;> rfl

@[simp] theorem jsDiv_nan_right (x : JsVal) : jsDiv x nan = nan := by
  cases x <;> rfl

@[simp] theorem jsSqrt_nan : jsSqrt nan = nan := rfl

@[simp] theorem jsStrictEq_num_num (a b : ℝ) : jsStrictEq (num a) (num b) ↔ a = b :=
  Iff.rfl

@[simp] theorem jsStrictEq_nan_left (x : JsVal) : ¬ jsStrictEq nan x := by
  cases x <;> simp [jsStrictEq]

@[simp] theorem jsStrictEq_nan_right (x : JsVal) : ¬ jsStrictEq x nan := by
  cases x <;> simp [jsStrictEq]

@[simp] theorem jsStrictEq_inf_num (s : Bool) (a : ℝ) :
    ¬ jsStrictEq (inf s) (num a) := by
  simp [jsStrictEq]

@[simp] theorem jsLe_num_num (a b : ℝ) : jsLe (num a) (num b) ↔ a ≤ b := Iff.rfl

@[simp] theorem jsLe_nan_left (x : JsVal) : ¬ jsLe nan x := by
  cases x <;> simp [jsLe]

@[simp] theorem jsLe_nan_right (x : JsVal) : ¬ jsLe x nan := by
  cases x <;> simp [jsLe]

theorem not_isFinite_jsDiv_num_zero (x : JsVal) : ¬ IsFinite (jsDiv x (num 0)) := by
  rcases x with a | s | _ <;> simp only [jsDiv] <;> (try split_ifs) <;>
    simp [IsFinite]

theorem not_isFinite_jsAdd_left {x : JsVal} (hx : ¬ IsFinite x) (y : JsVal) :
    ¬ IsFinite (jsAdd x y) := by
  rcases x with a | s | _
  · exact absurd ⟨a, rfl⟩ hx
  · rcases y with b | t | _ <;> simp only [jsAdd] <;> (try split_ifs) <;>
      simp [IsFinite]
  · rcases y with b | t | _ <;> simp [jsAdd, IsFinite]

theorem not_isFinite_jsAdd_right {y : JsVal} (hy : ¬ IsFinite y) (x : JsVal) :
    ¬ IsFinite (jsAdd x y) := by
  rcases y with b | t | _
  · exact absurd ⟨b, rfl⟩ hy
  · rcases x with a | s | _ <;> simp only [jsAdd] <;> (try split_ifs) <;>
      simp [IsFinite]
  · rcases x with a | s | _ <;> simp [jsAdd, IsFinite]

theorem not_isFinite_jsDiv_left {x : JsVal} (hx : ¬ IsFinite x) (y : JsVal) :
    ¬ IsFinite (jsDiv x y) := by
  rcases x with a | s | _
  · exact absurd ⟨a, rfl⟩ hx
  · rcases y with b | t | _ <;> simp only [jsDiv] <;> (try split_ifs) <;>
      simp [IsFinite]
  · rcases y with b | t | _ <;> simp [jsDiv, IsFinite]

end JsVal

/-! ### Claim theorems -/

/-- C5: `calculateSharpeRatio`, for every input with a nonzero standard
deviation, returns `(averageReturn − riskFreeRate) / standardDeviation`;
in particular `calculateSharpeRatio(0.02, 0.1, 0.15)` is `8/15 ≈ 0.5333`. -/
theorem sharpeRatio_spec :
    (∀ r a d : ℝ, d ≠ 0 →
      calculateSharpeRatio (JsVal.num r) (JsVal.num a) (JsVal.num d) =
        JsVal.num ((a - r) / d)) ∧
    calculateSharpeRatio (JsVal.num 0.02) (JsVal.num 0.1) (JsVal.num 0.15) =
      JsVal.num (8 / 15) := by
  have h : ∀ r a d : ℝ, d ≠ 0 →
      calculateSharpeRatio (JsVal.num r) (JsVal.num a) (JsVal.num d) =
        JsVal.num ((a - r) / d) := by
    intro r a d hd
    simp only [calculateSharpeRatio]
    rw [if_neg (by simpa using hd), jsSub_num_num, jsDiv_num_num _ _ hd]
  refine ⟨h, ?_⟩
  rw [h 0.02 0.1 0.15 (by norm_num)]
  norm_num

/-- Witness for C5 at the concrete input `(0.02, 0.1, 0.15)`. -/
theorem sharpeRatio_spec_witness :
    calculateSharpeRatio (JsVal.num 0.02) (JsVal.num 0.1) (JsVal.num 0.15) =
      JsVal.num ((0.1 - 0.02) / 0.15) :=
  sharpeRatio_spec.1 0.02 0.1 0.15 (by norm_num)

/-- C6: `calculateTreynorRatio`, for every input with nonzero beta, returns
`(averageReturn − marketReturn) / beta` — the excess over the market
return, not over a risk-free rate; in particular
`calculateTreynorRatio(0.1, 0.08, 1.2)` is `1/60 ≈ 0.01667`. -/
theorem treynorRatio_spec :
    (∀ a m b : ℝ, b ≠ 0 →
      calculateTreynorRatio (JsVal.num a) (JsVal.num m) (JsVal.num b) =
        JsVal.num ((a - m) / b)) ∧
    calculateTreynorRatio (JsVal.num 0.1) (JsVal.num 0.08) (JsVal.num 1.2) =
      JsVal.num (1 / 60) := by
  have h : ∀ a m b : ℝ, b ≠ 0 →
      calculateTreynorRatio (JsVal.num a) (JsVal.num m) (JsVal.num b) =
        JsVal.num ((a - m) / b) := by
    intro a m b hb
    simp only [calculateTreynorRatio]
    rw [if_neg (by simpa using hb), jsSub_num_num, jsDiv_num_num _ _ hb]
  refine ⟨h, ?_⟩
  rw [h 0.1 0.08 1.2 (by norm_num)]
  norm_num

/-- Witness for C6 at the concrete input `(0.1, 0.08, 1.2)`. -/
theorem treynorRatio_spec_witness :
    calculateTreynorRatio (JsVal.num 0.1) (JsVal.num 0.08) (JsVal.num 1.2) =
      JsVal.num ((0.1 - 0.08) / 1.2) :=
  treynorRatio_spec.1 0.1 0.08 1.2 (by norm_num)

/-- C7: `calculateExpectedReturnCAPM` has no guard or sentinel condition:
on every finite input triple it returns
`riskFreeRate + beta × (marketReturn − riskFreeRate)`; in particular
`calculateExpectedReturnCAPM(0.02, 0.08, 1.2)` is `0.092`. -/
theorem expectedReturnCAPM_spec :
    (∀ r m b : ℝ,
      calculateExpectedReturnCAPM (JsVal.num r) (JsVal.num m) (JsVal.num b) =
        JsVal.num (r + b * (m - r))) ∧
    calculateExpectedReturnCAPM (JsVal.num 0.02) (JsVal.num 0.08) (JsVal.num 1.2) =
      JsVal.num 0.092 := by
  have h : ∀ r m b : ℝ,
      calculateExpectedReturnCAPM (JsVal.num r) (JsVal.num m) (JsVal.num b) =
        JsVal.num (r + b * (m - r)) := by
    intro r m b
    simp [calculateExpectedReturnCAPM]
  refine ⟨h, ?_⟩
  rw [h 0.02 0.08 1.2]
  norm_num

/-- C9: `calculateSortinoRatio` and `calculateSharpeRatio` are
extensionally equal: identical guard on the third argument, identical
subtraction and division, on every input triple (including infinities and
`nan`). -/
theorem sortino_eq_sharpe (r a d : JsVal) :
    calculateSortinoRatio r a d = calculateSharpeRatio r a d := rfl

/-- C2: every function with a documented zero-denominator guard returns
the `nan` sentinel (no exception: the embedded functions are total) when
the guarded denominator argument is exactly `0`, and `nan` is not
strict-equal (`===`) to any value, itself included. -/
theorem zero_denominator_guards :
    (∀ r a, calculateSharpeRatio r a (JsVal.num 0) = JsVal.nan) ∧
    (∀ a m, calculateTreynorRatio a m (JsVal.num 0) = JsVal.nan) ∧
    (∀ r a, calculateSortinoRatio r a (JsVal.num 0) = JsVal.nan) ∧
    (∀ ev, calculateEnterpriseValueToEBITDA ev (JsVal.num 0) = JsVal.nan) ∧
    (∀ p, calculatePriceToBook p (JsVal.num 0) = JsVal.nan) ∧
    (∀ e g, calculateGrahamNumber e g (JsVal.num 0) = JsVal.nan) ∧
    (∀ v : JsVal, ¬ jsStrictEq JsVal.nan v ∧ ¬ jsStrictEq v JsVal.nan) := by
  refine ⟨fun r a => ?_, fun a m => ?_, fun r a => ?_, fun ev => ?_, fun p => ?_,
      fun e g => ?_, fun v => ⟨jsStrictEq_nan_left v, jsStrictEq_nan_right v⟩⟩ <;>
    simp [calculateSharpeRatio, calculateTreynorRatio, calculateSortinoRatio,
      calculateEnterpriseValueToEBITDA, calculatePriceToBook,
      calculateGrahamNumber, jsStrictEq]

/-- Witness for C2: the Sharpe ratio at standard deviation `0` is the
`nan` sentinel, and `nan === nan` is false. -/
theorem zero_denominator_guards_witness :
    calculateSharpeRatio (JsVal.num 0.02) (JsVal.num 0.1) (JsVal.num 0) = JsVal.nan ∧
    ¬ jsStrictEq JsVal.nan JsVal.nan :=
  ⟨zero_denominator_guards.1 (JsVal.num 0.02) (JsVal.num 0.1),
    (zero_denominator_guards.2.2.2.2.2.2 JsVal.nan).1⟩

/-- C8: every exported function is a pure, deterministic function of its
arguments — in this embedding each is a mathematical function, so two
calls with identical arguments yield identical results. -/
theorem exports_deterministic :
    (∀ r a d, calculateSharpeRatio r a d = calculateSharpeRatio r a d) ∧
    (∀ a m b, calculateTreynorRatio a m b = calculateTreynorRatio a m b) ∧
    (∀ r a d, calculateSortinoRatio r a d = calculateSortinoRatio r a d) ∧
    (∀ ev e, calculateEnterpriseValueToEBITDA ev e =
      calculateEnterpriseValueToEBITDA ev e) ∧
    (∀ p b, calculatePriceToBook p b = calculatePriceToBook p b) ∧
    (∀ e g y, calculateGrahamNumber e g y = calculateGrahamNumber e g y) ∧
    (∀ r m b, calculateExpectedReturnCAPM r m b = calculateExpectedReturnCAPM r m b) ∧
    (∀ wc re ta mve tl, calculateAltmanZScore wc re ta mve tl =
      calculateAltmanZScore wc re ta mve tl) ∧
    (∀ d g r, calculateGordonIntrinsicValueDDM d g r =
      calculateGordonIntrinsicValueDDM d g r) :=
  ⟨fun _ _ _ => rfl, fun _ _ _ => rfl, fun _ _ _ => rfl, fun _ _ => rfl,
    fun _ _ => rfl, fun _ _ _ => rfl, fun _ _ _ => rfl, fun _ _ _ _ _ => rfl,
    fun _ _ _ => rfl⟩

/-- The Graham-number body on finite nonzero inputs: guard is skipped and
the result is the exact formula value. -/
theorem grahamNumber_formula (e g y : ℝ) (he : e ≠ 0) (hy : y ≠ 0) :
    calculateGrahamNumber (JsVal.num e) (JsVal.num g) (JsVal.num y) =
      JsVal.num (e * (1 + g) * Real.sqrt 22.5 / y) := by
  simp only [calculateGrahamNumber]
  rw [if_neg (by simp [he, hy])]
  simp only [jsSqrt]
  rw [if_neg (by norm_num), jsAdd_num_num, jsMul_num_num, jsMul_num_num,
    jsDiv_num_num _ _ hy]

/-- Rational bracketing of `√22.5`. -/
theorem sqrt_22_5_bounds : 4.743 < Real.sqrt 22.5 ∧ Real.sqrt 22.5 < 4.7435 :=
  ⟨(Real.lt_sqrt (by norm_num)).mpr (by norm_num),
    (Real.sqrt_lt' (by norm_num)).mpr (by norm_num)⟩

/-- C3 counterexample: the documented example value is wrong.
`calculateGrahamNumber(5, 0.05, 0.03)` equals `175·√22.5 ≈ 830.1`, which
is more than `3` above the documented `826.8`, so it is not `≈ 826.8`. -/
theorem grahamNumber_example_not_826_8 :
    calculateGrahamNumber (JsVal.num 5) (JsVal.num 0.05) (JsVal.num 0.03) =
      JsVal.num (175 * Real.sqrt 22.5) ∧
    826.8 + 3 < 175 * Real.sqrt 22.5 := by
  constructor
  · rw [grahamNumber_formula 5 0.05 0.03 (by norm_num) (by norm_num)]
    congr 1
    ring
  · have h := sqrt_22_5_bounds.1
    nlinarith

/-- C3 (amended): `calculateGrahamNumber`, for every input with
`earningsPerShare ≠ 0` and `bondYield ≠ 0`, returns
`earningsPerShare × (1 + epsGrowthRate) × √22.5 / bondYield`; in
particular `calculateGrahamNumber(5, 0.05, 0.03) = 175·√22.5 ≈ 830.1`
(strictly between `830` and `830.2`), not `≈ 826.8`. -/
theorem grahamNumber_spec :
    (∀ e g y : ℝ, e ≠ 0 → y ≠ 0 →
      calculateGrahamNumber (JsVal.num e) (JsVal.num g) (JsVal.num y) =
        JsVal.num (e * (1 + g) * Real.sqrt 22.5 / y)) ∧
    calculateGrahamNumber (JsVal.num 5) (JsVal.num 0.05) (JsVal.num 0.03) =
      JsVal.num (175 * Real.sqrt 22.5) ∧
    830 < 175 * Real.sqrt 22.5 ∧ 175 * Real.sqrt 22.5 < 830.2 := by
  obtain ⟨hlo, hhi⟩ := sqrt_22_5_bounds
  refine ⟨grahamNumber_formula, ?_, by nlinarith, by nlinarith⟩
  rw [grahamNumber_formula 5 0.05 0.03 (by norm_num) (by norm_num)]
  congr 1
  ring

/-- Witness for C3 (amended) at the concrete input `(5, 0.05, 0.03)`. -/
theorem grahamNumber_spec_witness :
    calculateGrahamNumber (JsVal.num 5) (JsVal.num 0.05) (JsVal.num 0.03) =
      JsVal.num (5 * (1 + 0.05) * Real.sqrt 22.5 / 0.03) :=
  grahamNumber_spec.1 5 0.05 0.03 (by norm_num) (by norm_num)

/-- C4: `calculateGordonIntrinsicValueDDM` on finite inputs returns the
`nan` sentinel exactly when `discountRate ≤ growthRate`, and otherwise
`currentDividend / (discountRate − growthRate)`; in particular
`calculateGordonIntrinsicValueDDM(2, 0.06, 0.1) = 50` and the call with
`growthRate = 0.06`, `discountRate = 0.05` returns the sentinel. -/
theorem gordonDDM_spec :
    (∀ d g r : ℝ,
      (calculateGordonIntrinsicValueDDM (JsVal.num d) (JsVal.num g) (JsVal.num r) =
        JsVal.nan ↔ r ≤ g)) ∧
    (∀ d g r : ℝ, g < r →
      calculateGordonIntrinsicValueDDM (JsVal.num d) (JsVal.num g) (JsVal.num r) =
        JsVal.num (d / (r - g))) ∧
    calculateGordonIntrinsicValueDDM (JsVal.num 2) (JsVal.num 0.06) (JsVal.num 0.1) =
      JsVal.num 50 ∧
    calculateGordonIntrinsicValueDDM (JsVal.num 2) (JsVal.num 0.06) (JsVal.num 0.05) =
      JsVal.nan := by
  have hval : ∀ d g r : ℝ, g < r →
      calculateGordonIntrinsicValueDDM (JsVal.num d) (JsVal.num g) (JsVal.num r) =
        JsVal.num (d / (r - g)) := by
    intro d g r h
    simp only [calculateGordonIntrinsicValueDDM]
    rw [if_neg (by simpa using not_le.mpr h), jsSub_num_num,
      jsDiv_num_num _ _ (sub_ne_zero.mpr (ne_of_gt h))]
  have hiff : ∀ d g r : ℝ,
      (calculateGordonIntrinsicValueDDM (JsVal.num d) (JsVal.num g) (JsVal.num r) =
        JsVal.nan ↔ r ≤ g) := by
    intro d g r
    by_cases hle : r ≤ g
    · simp [calculateGordonIntrinsicValueDDM, hle]
    · rw [hval d g r (not_le.mp hle)]
      simp [hle]
  refine ⟨hiff, hval, ?_, ?_⟩
  · rw [hval 2 0.06 0.1 (by norm_num)]
    norm_num
  · exact (hiff 2 0.06 0.05).mpr (by norm_num)

/-- Witness for C4 at the concrete input `(2, 0.06, 0.1)`. -/
theorem gordonDDM_spec_witness :
    calculateGordonIntrinsicValueDDM (JsVal.num 2) (JsVal.num 0.06) (JsVal.num 0.1) =
      JsVal.num (2 / (0.1 - 0.06)) :=
  gordonDDM_spec.2.1 2 0.06 0.1 (by norm_num)

/-- Multiplying by a positive finite constant commutes with a following
division, for every `JsVal` operand (finite, infinite or `nan`): this is
what makes the code's `(c*x)/y` agree with the specification's `c·(x/y)`. -/
theorem jsDiv_jsMul_num_left (c : ℝ) (hc : 0 < c) (x y : JsVal) :
    jsDiv (jsMul (JsVal.num c) x) y = jsMul (JsVal.num c) (jsDiv x y) := by
  have hc0 : c ≠ 0 := ne_of_gt hc
  have hmulinf : ∀ s, jsMul (JsVal.num c) (JsVal.inf s) = JsVal.inf s := by
    intro s
    simp [jsMul, hc0, hc]
  rcases x with a | s | _
  · rcases y with b | t | _
    · by_cases hb : b = 0
      · subst hb
        by_cases ha : a = 0
        · simp [jsDiv, jsMul, ha, hc0]
        · have hca : c * a ≠ 0 := mul_ne_zero hc0 ha
          by_cases hapos : 0 < a
          · have hcapos : 0 < c * a := mul_pos hc hapos
            simp [jsDiv, jsMul, ha, hca, hapos, hcapos, hmulinf, hc0, hc]
          · have haneg : a < 0 := lt_of_le_of_ne (not_lt.mp hapos) ha
            have hcaneg : ¬ 0 < c * a := by nlinarith
            simp [jsDiv, ha, hca, hapos, hcaneg, hmulinf, hc0, hc]
      · simp [jsDiv, hb, mul_div_assoc]
    · simp [jsDiv, jsMul]
    · simp
  · rcases y with b | t | _
    · by_cases hb : (0:ℝ) ≤ b
      · simp [jsDiv, hb, hmulinf]
      · simp [jsDiv, hb, hmulinf]
    · rw [hmulinf]
      simp [jsDiv]
    · rw [hmulinf]
      simp
  · simp

/-- C1: `calculateAltmanZScore` computes exactly the two-stage
specification formula (numerator of four coefficient-weighted quotients
divided by `marketValueEquity/totalLiabilities`) on every input
quintuple, and there is no guard: with `totalAssets = 0` or
`totalLiabilities = 0` the result is an IEEE infinity or `nan`, never a
finite number. -/
theorem altmanZScore_spec :
    (∀ wc re ta mve tl : JsVal,
      calculateAltmanZScore wc re ta mve tl =
        altmanZScoreSpecFormula wc re ta mve tl) ∧
    (∀ wc re ta mve tl : ℝ, ta = 0 ∨ tl = 0 →
      ¬ IsFinite (calculateAltmanZScore (JsVal.num wc) (JsVal.num re)
        (JsVal.num ta) (JsVal.num mve) (JsVal.num tl))) := by
  constructor
  · intro wc re ta mve tl
    simp only [calculateAltmanZScore, altmanZScoreSpecFormula]
    rw [jsDiv_jsMul_num_left 1.2 (by norm_num), jsDiv_jsMul_num_left 1.4 (by norm_num),
      jsDiv_jsMul_num_left 3.3 (by norm_num), jsDiv_jsMul_num_left 0.6 (by norm_num)]
  · rintro wc re ta mve tl (h | h)
    · subst h
      simp only [calculateAltmanZScore]
      exact not_isFinite_jsDiv_left
        (not_isFinite_jsAdd_left
          (not_isFinite_jsAdd_left
            (not_isFinite_jsAdd_left (not_isFinite_jsDiv_num_zero _) _) _) _) _
    · subst h
      simp only [calculateAltmanZScore]
      exact not_isFinite_jsDiv_left
        (not_isFinite_jsAdd_right (not_isFinite_jsDiv_num_zero _) _) _

/-- Witness for C1: at `totalAssets = 0` (all other inputs `1`) the
Z-Score is not a finite number. -/
theorem altmanZScore_spec_witness :
    ¬ IsFinite (calculateAltmanZScore (JsVal.num 1) (JsVal.num 1) (JsVal.num 0)
      (JsVal.num 1) (JsVal.num 1)) :=
  altmanZScore_spec.2 1 1 0 1 1 (Or.inl rfl)

/-- C10: every exported function maps a `nan` argument (in any position)
to `nan`: the guard comparisons (`=== 0`, `<=`) are false on `nan`, so
execution falls through to the arithmetic, which propagates `nan`. -/
theorem nan_propagation :
    (∀ a d, calculateSharpeRatio JsVal.nan a d = JsVal.nan) ∧
    (∀ r d, calculateSharpeRatio r JsVal.nan d = JsVal.nan) ∧
    (∀ r a, calculateSharpeRatio r a JsVal.nan = JsVal.nan) ∧
    (∀ m b, calculateTreynorRatio JsVal.nan m b = JsVal.nan) ∧
    (∀ a b, calculateTreynorRatio a JsVal.nan b = JsVal.nan) ∧
    (∀ a m, calculateTreynorRatio a m JsVal.nan = JsVal.nan) ∧
    (∀ a d, calculateSortinoRatio JsVal.nan a d = JsVal.nan) ∧
    (∀ r d, calculateSortinoRatio r JsVal.nan d = JsVal.nan) ∧
    (∀ r a, calculateSortinoRatio r a JsVal.nan = JsVal.nan) ∧
    (∀ e, calculateEnterpriseValueToEBITDA JsVal.nan e = JsVal.nan) ∧
    (∀ ev, calculateEnterpriseValueToEBITDA ev JsVal.nan = JsVal.nan) ∧
    (∀ b, calculatePriceToBook JsVal.nan b = JsVal.nan) ∧
    (∀ p, calculatePriceToBook p JsVal.nan = JsVal.nan) ∧
    (∀ g y, calculateGrahamNumber JsVal.nan g y = JsVal.nan) ∧
    (∀ e y, calculateGrahamNumber e JsVal.nan y = JsVal.nan) ∧
    (∀ e g, calculateGrahamNumber e g JsVal.nan = JsVal.nan) ∧
    (∀ m b, calculateExpectedReturnCAPM JsVal.nan m b = JsVal.nan) ∧
    (∀ r b, calculateExpectedReturnCAPM r JsVal.nan b = JsVal.nan) ∧
    (∀ r m, calculateExpectedReturnCAPM r m JsVal.nan = JsVal.nan) ∧
    (∀ re ta mve tl, calculateAltmanZScore JsVal.nan re ta mve tl = JsVal.nan) ∧
    (∀ wc ta mve tl, calculateAltmanZScore wc JsVal.nan ta mve tl = JsVal.nan) ∧
    (∀ wc re mve tl, calculateAltmanZScore wc re JsVal.nan mve tl = JsVal.nan) ∧
    (∀ wc re ta tl, calculateAltmanZScore wc re ta JsVal.nan tl = JsVal.nan) ∧
    (∀ wc re ta mve, calculateAltmanZScore wc re ta mve JsVal.nan = JsVal.nan) ∧
    (∀ g r, calculateGordonIntrinsicValueDDM JsVal.nan g r = JsVal.nan) ∧
    (∀ d r, calculateGordonIntrinsicValueDDM d JsVal.nan r = JsVal.nan) ∧
    (∀ d g, calculateGordonIntrinsicValueDDM d g JsVal.nan = JsVal.nan) := by
  refine ⟨?_, ?_, ?_, ?_, ?_, ?_, ?_, ?_, ?_, ?_, ?_, ?_, ?_, ?_, ?_, ?_, ?_,
    ?_, ?_, ?_, ?_, ?_, ?_, ?_, ?_, ?_, ?_⟩ <;>
    · intros
      simp only [calculateSharpeRatio, calculateTreynorRatio,
        calculateSortinoRatio, calculateEnterpriseValueToEBITDA,
        calculatePriceToBook, calculateGrahamNumber,
        calculateExpectedReturnCAPM, calculateAltmanZScore,
        calculateGordonIntrinsicValueDDM]
      try split_ifs
      all_goals simp

end FinancialRatios
